import Mathlib

/-!
Shallow embedding of `nonlinear_solvers/solvers.py`.

The Python module defines three solver operations and a sign helper:

* `newton_raphson(f, df, x_0, eps, max_its)` — Newton iteration;
* `bisection(f, x_0, x_1, eps, max_its)` — bisection with a per-iteration
  bracket check via `check_sign`;
* `solve(f, df, x_0, x_1, eps, max_its_n, max_its_b)` — Newton first,
  falling back to bisection exactly on `ConvergenceError`;
* `check_sign(number)` — returns the string "Negative", "Positive" or "Zero".

Real numbers are modelled by `ℚ`, Python ints by `ℤ` (the iteration counter,
which starts at 0 and only increments, by `ℕ` cast into `ℤ` for the
`counter == max_its` comparison).  The `while True` loops are embedded with an
explicit fuel argument: `none` means the loop was still running after `fuel`
iterations, `some r` means it finished with result `r` (a return value or a
raised exception).  Raised exceptions are modelled by `PyError`:
`convergenceError msg` embeds the module's own `ConvergenceError(msg)`,
`valueError` the bare `raise ValueError` in `bisection`, and
`zeroDivisionError` the `ZeroDivisionError` that Python float division raises
when `df(x_0) == 0` in the Newton update.
-/

/-- The exceptions the embedded code can raise. -/
inductive PyError where
  | convergenceError (msg : String) : PyError
  | valueError : PyError
  | zeroDivisionError : PyError
  deriving DecidableEq, Repr

/-- `check_sign(number)` from `solvers.py`: classify a number's sign as one of
the strings "Negative", "Positive", "Zero". -/
def check_sign (number : ℚ) : String :=
  if number < 0 then "Negative"
  else if number > 0 then "Positive"
  else "Zero"

/-- The `while True` loop of `newton_raphson`, with `counter` the current value
of the Python `counter` variable and `fuel` the number of further loop
iterations we allow before reporting `none` (still running).  Each iteration
computes `x_next = x_0 - f(x_0)/df(x_0)` (raising `ZeroDivisionError` when
`df(x_0) == 0`), returns `x_next` if `abs(f(x_next)) < eps`, raises
`ConvergenceError("Max iteration reached")` if `counter == max_its`, and
otherwise continues with `x_0 = x_next` and `counter + 1`. -/
def newton_raphsonAux (f df : ℚ → ℚ) (x_0 eps : ℚ) (max_its : ℤ) (counter : ℕ) :
    ℕ → Option (Except PyError ℚ)
  | 0 => none
  | fuel + 1 =>
      if df x_0 = 0 then
        some (.error .zeroDivisionError)
      else
        let x_next := x_0 - f x_0 / df x_0
        if |f x_next| < eps then
          some (.ok x_next)
        else if (counter : ℤ) = max_its then
          some (.error (.convergenceError "Max iteration reached"))
        else
          newton_raphsonAux f df x_next eps max_its (counter + 1) fuel

/-- `newton_raphson(f, df, x_0, eps, max_its)` from `solvers.py`:
the loop entered with `counter = 0`. -/
def newton_raphson (f df : ℚ → ℚ) (x_0 eps : ℚ) (max_its : ℤ) (fuel : ℕ) :
    Option (Except PyError ℚ) :=
  newton_raphsonAux f df x_0 eps max_its 0 fuel

/-- The `while True` loop of `bisection`.  Each iteration first re-checks the
bracket: if `check_sign(f(x_0)) == check_sign(f(x_1))` it raises a bare
`ValueError`; then it computes the midpoint `x_star = (x_0 + x_1)/2`, returns
it if `abs(f(x_star)) < eps`, raises `ConvergenceError("Max iteration
reached")` if `counter == max_its`, and otherwise replaces the endpoint whose
sign matches `f(x_star)` (namely `x_1` when `check_sign(f(x_star)) ==
check_sign(f(x_1))`, else `x_0`) and increments the counter. -/
def bisectionAux (f : ℚ → ℚ) (x_0 x_1 eps : ℚ) (max_its : ℤ) (counter : ℕ) :
    ℕ → Option (Except PyError ℚ)
  | 0 => none
  | fuel + 1 =>
      if check_sign (f x_0) = check_sign (f x_1) then
        some (.error .valueError)
      else
        let x_star := (x_0 + x_1) / 2
        if |f x_star| < eps then
          some (.ok x_star)
        else if (counter : ℤ) = max_its then
          some (.error (.convergenceError "Max iteration reached"))
        else if check_sign (f x_star) = check_sign (f x_1) then
          bisectionAux f x_0 x_star eps max_its (counter + 1) fuel
        else
          bisectionAux f x_star x_1 eps max_its (counter + 1) fuel

/-- `bisection(f, x_0, x_1, eps, max_its)` from `solvers.py`:
the loop entered with `counter = 0`. -/
def bisection (f : ℚ → ℚ) (x_0 x_1 eps : ℚ) (max_its : ℤ) (fuel : ℕ) :
    Option (Except PyError ℚ) :=
  bisectionAux f x_0 x_1 eps max_its 0 fuel

/-- `solve(f, df, x_0, x_1, eps, max_its_n, max_its_b)` from `solvers.py`:
`try: return newton_raphson(...) except ConvergenceError: return
bisection(...)`.  The `except ConvergenceError` clause matches exactly the
`convergenceError` constructor; every other outcome of the Newton attempt
(a returned value, a `ValueError`, a `ZeroDivisionError`, or still running)
is passed through unchanged. -/
def solve (f df : ℚ → ℚ) (x_0 x_1 eps : ℚ) (max_its_n max_its_b : ℤ)
    (fuel : ℕ) : Option (Except PyError ℚ) :=
  match newton_raphson f df x_0 eps max_its_n fuel with
  | some (.error (.convergenceError _)) => bisection f x_0 x_1 eps max_its_b fuel
  | r => r

/-! ### Unfolding equations for the loop bodies -/

theorem newton_raphsonAux_zero (f df : ℚ → ℚ) (x_0 eps : ℚ) (m : ℤ) (c : ℕ) :
    newton_raphsonAux f df x_0 eps m c 0 = none := rfl

theorem newton_raphsonAux_succ (f df : ℚ → ℚ) (x_0 eps : ℚ) (m : ℤ) (c fuel : ℕ) :
    newton_raphsonAux f df x_0 eps m c (fuel + 1) =
      if df x_0 = 0 then some (.error .zeroDivisionError)
      else if |f (x_0 - f x_0 / df x_0)| < eps then some (.ok (x_0 - f x_0 / df x_0))
      else if (c : ℤ) = m then some (.error (.convergenceError "Max iteration reached"))
      else newton_raphsonAux f df (x_0 - f x_0 / df x_0) eps m (c + 1) fuel := rfl

theorem bisectionAux_zero (f : ℚ → ℚ) (x_0 x_1 eps : ℚ) (m : ℤ) (c : ℕ) :
    bisectionAux f x_0 x_1 eps m c 0 = none := rfl

theorem bisectionAux_succ (f : ℚ → ℚ) (x_0 x_1 eps : ℚ) (m : ℤ) (c fuel : ℕ) :
    bisectionAux f x_0 x_1 eps m c (fuel + 1) =
      if check_sign (f x_0) = check_sign (f x_1) then some (.error .valueError)
      else if |f ((x_0 + x_1) / 2)| < eps then some (.ok ((x_0 + x_1) / 2))
      else if (c : ℤ) = m then some (.error (.convergenceError "Max iteration reached"))
      else if check_sign (f ((x_0 + x_1) / 2)) = check_sign (f x_1) then
        bisectionAux f x_0 ((x_0 + x_1) / 2) eps m (c + 1) fuel
      else
        bisectionAux f ((x_0 + x_1) / 2) x_1 eps m (c + 1) fuel := rfl

/-! ### Helper lemmas about the Newton loop -/

theorem newton_raphsonAux_mono (f df : ℚ → ℚ) (eps : ℚ) (m : ℤ) :
    ∀ (fuel : ℕ) (x_0 : ℚ) (c : ℕ) (r : Except PyError ℚ) (fuel2 : ℕ),
      newton_raphsonAux f df x_0 eps m c fuel = some r → fuel ≤ fuel2 →
      newton_raphsonAux f df x_0 eps m c fuel2 = some r := by
  intro fuel
  induction fuel with
  | zero => intro x_0 c r fuel2 h _; simp [newton_raphsonAux_zero] at h
  | succ fuel ih =>
      intro x_0 c r fuel2 h hle
      obtain ⟨fuel3, rfl⟩ : ∃ k, fuel2 = k + 1 := ⟨fuel2 - 1, by omega⟩
      rw [newton_raphsonAux_succ] at h ⊢
      split_ifs at h ⊢
      · exact h
      · exact h
      · exact h
      · exact ih _ _ _ _ h (by omega)

theorem newton_raphsonAux_ok (f df : ℚ → ℚ) (eps : ℚ) (m : ℤ) :
    ∀ (fuel : ℕ) (x_0 : ℚ) (c : ℕ) (x : ℚ),
      newton_raphsonAux f df x_0 eps m c fuel = some (.ok x) → |f x| < eps := by
  intro fuel
  induction fuel with
  | zero => intro x_0 c x h; simp [newton_raphsonAux_zero] at h
  | succ fuel ih =>
      intro x_0 c x h
      rw [newton_raphsonAux_succ] at h
      split_ifs at h with h1 h2 h3
      · simp at h
      · obtain rfl : x_0 - f x_0 / df x_0 = x := by simpa using h
        exact h2
      · simp at h
      · exact ih _ _ _ h

theorem newton_raphsonAux_msg (f df : ℚ → ℚ) (eps : ℚ) (m : ℤ) :
    ∀ (fuel : ℕ) (x_0 : ℚ) (c : ℕ) (msg : String),
      newton_raphsonAux f df x_0 eps m c fuel = some (.error (.convergenceError msg)) →
      msg = "Max iteration reached" := by
  intro fuel
  induction fuel with
  | zero => intro x_0 c msg h; simp [newton_raphsonAux_zero] at h
  | succ fuel ih =>
      intro x_0 c msg h
      rw [newton_raphsonAux_succ] at h
      split_ifs at h with h1 h2 h3
      · simp at h
      · simp at h
      · simpa using h.symm
      · exact ih _ _ _ h

theorem newton_raphsonAux_no_valueError (f df : ℚ → ℚ) (eps : ℚ) (m : ℤ) :
    ∀ (fuel : ℕ) (x_0 : ℚ) (c : ℕ),
      newton_raphsonAux f df x_0 eps m c fuel ≠ some (.error .valueError) := by
  intro fuel
  induction fuel with
  | zero => intro x_0 c; simp [newton_raphsonAux_zero]
  | succ fuel ih =>
      intro x_0 c
      rw [newton_raphsonAux_succ]
      split_ifs with h1 h2 h3
      · simp
      · simp
      · simp
      · exact ih _ _

theorem newton_raphsonAux_conv_counter (f df : ℚ → ℚ) (eps : ℚ) (m : ℤ) :
    ∀ (fuel : ℕ) (x_0 : ℚ) (c : ℕ) (msg : String),
      newton_raphsonAux f df x_0 eps m c fuel = some (.error (.convergenceError msg)) →
      ∃ k : ℕ, c ≤ k ∧ k < c + fuel ∧ (k : ℤ) = m := by
  intro fuel
  induction fuel with
  | zero => intro x_0 c msg h; simp [newton_raphsonAux_zero] at h
  | succ fuel ih =>
      intro x_0 c msg h
      rw [newton_raphsonAux_succ] at h
      split_ifs at h with h1 h2 h3
      · simp at h
      · simp at h
      · exact ⟨c, le_refl c, by omega, h3⟩
      · obtain ⟨k, hk1, hk2, hk3⟩ := ih _ _ _ h
        exact ⟨k, by omega, by omega, hk3⟩

theorem newton_raphsonAux_total (f df : ℚ → ℚ) (eps : ℚ) (m : ℕ) :
    ∀ (k : ℕ) (x_0 : ℚ) (c : ℕ), c ≤ m → m - c ≤ k →
      newton_raphsonAux f df x_0 eps (m : ℤ) c (k + 1) ≠ none := by
  intro k
  induction k with
  | zero =>
      intro x_0 c hc hk
      have hcm : c = m := by omega
      subst hcm
      rw [newton_raphsonAux_succ]
      split_ifs with h1 h2 h3
      · simp
      · simp
      · simp
      · exact absurd rfl h3
  | succ k ih =>
      intro x_0 c hc hk
      rw [newton_raphsonAux_succ]
      split_ifs with h1 h2 h3
      · simp
      · simp
      · simp
      · have hcm : c < m := by
          rcases lt_or_eq_of_le hc with h | h
          · exact h
          · exact absurd (by exact_mod_cast congrArg (Nat.cast : ℕ → ℤ) h) h3
        exact ih _ (c + 1) (by omega) (by omega)

/-! ### Helper lemmas about the bisection loop -/

theorem bisectionAux_ok (f : ℚ → ℚ) (eps : ℚ) (m : ℤ) :
    ∀ (fuel : ℕ) (x_0 x_1 : ℚ) (c : ℕ) (x : ℚ),
      bisectionAux f x_0 x_1 eps m c fuel = some (.ok x) → |f x| < eps := by
  intro fuel
  induction fuel with
  | zero => intro x_0 x_1 c x h; simp [bisectionAux_zero] at h
  | succ fuel ih =>
      intro x_0 x_1 c x h
      rw [bisectionAux_succ] at h
      split_ifs at h with h1 h2 h3 h4
      · simp at h
      · obtain rfl : (x_0 + x_1) / 2 = x := by simpa using h
        exact h2
      · simp at h
      · exact ih _ _ _ _ h
      · exact ih _ _ _ _ h

theorem bisectionAux_msg (f : ℚ → ℚ) (eps : ℚ) (m : ℤ) :
    ∀ (fuel : ℕ) (x_0 x_1 : ℚ) (c : ℕ) (msg : String),
      bisectionAux f x_0 x_1 eps m c fuel = some (.error (.convergenceError msg)) →
      msg = "Max iteration reached" := by
  intro fuel
  induction fuel with
  | zero => intro x_0 x_1 c msg h; simp [bisectionAux_zero] at h
  | succ fuel ih =>
      intro x_0 x_1 c msg h
      rw [bisectionAux_succ] at h
      split_ifs at h with h1 h2 h3 h4
      · simp at h
      · simp at h
      · simpa using h.symm
      · exact ih _ _ _ _ h
      · exact ih _ _ _ _ h

theorem bisectionAux_no_zeroDivisionError (f : ℚ → ℚ) (eps : ℚ) (m : ℤ) :
    ∀ (fuel : ℕ) (x_0 x_1 : ℚ) (c : ℕ),
      bisectionAux f x_0 x_1 eps m c fuel ≠ some (.error .zeroDivisionError) := by
  intro fuel
  induction fuel with
  | zero => intro x_0 x_1 c; simp [bisectionAux_zero]
  | succ fuel ih =>
      intro x_0 x_1 c
      rw [bisectionAux_succ]
      split_ifs with h1 h2 h3 h4
      · simp
      · simp
      · simp
      · exact ih _ _ _
      · exact ih _ _ _

theorem bisectionAux_conv_counter (f : ℚ → ℚ) (eps : ℚ) (m : ℤ) :
    ∀ (fuel : ℕ) (x_0 x_1 : ℚ) (c : ℕ) (msg : String),
      bisectionAux f x_0 x_1 eps m c fuel = some (.error (.convergenceError msg)) →
      ∃ k : ℕ, c ≤ k ∧ k < c + fuel ∧ (k : ℤ) = m := by
  intro fuel
  induction fuel with
  | zero => intro x_0 x_1 c msg h; simp [bisectionAux_zero] at h
  | succ fuel ih =>
      intro x_0 x_1 c msg h
      rw [bisectionAux_succ] at h
      split_ifs at h with h1 h2 h3 h4
      · simp at h
      · simp at h
      · exact ⟨c, le_refl c, by omega, h3⟩
      · obtain ⟨k, hk1, hk2, hk3⟩ := ih _ _ _ _ h
        exact ⟨k, by omega, by omega, hk3⟩
      · obtain ⟨k, hk1, hk2, hk3⟩ := ih _ _ _ _ h
        exact ⟨k, by omega, by omega, hk3⟩

theorem mid_between (x_0 x_1 : ℚ) :
    min x_0 x_1 ≤ (x_0 + x_1) / 2 ∧ (x_0 + x_1) / 2 ≤ max x_0 x_1 := by
  constructor
  · rcases le_total x_0 x_1 with h | h
    · rw [min_eq_left h]; linarith
    · rw [min_eq_right h]; linarith
  · rcases le_total x_0 x_1 with h | h
    · rw [max_eq_right h]; linarith
    · rw [max_eq_left h]; linarith

theorem bisectionAux_mem (f : ℚ → ℚ) (eps : ℚ) (m : ℤ) :
    ∀ (fuel : ℕ) (x_0 x_1 : ℚ) (c : ℕ) (x : ℚ),
      bisectionAux f x_0 x_1 eps m c fuel = some (.ok x) →
      min x_0 x_1 ≤ x ∧ x ≤ max x_0 x_1 := by
  intro fuel
  induction fuel with
  | zero => intro x_0 x_1 c x h; simp [bisectionAux_zero] at h
  | succ fuel ih =>
      intro x_0 x_1 c x h
      obtain ⟨hm1, hm2⟩ := mid_between x_0 x_1
      rw [bisectionAux_succ] at h
      split_ifs at h with h1 h2 h3 h4
      · simp at h
      · obtain rfl : (x_0 + x_1) / 2 = x := by simpa using h
        exact ⟨hm1, hm2⟩
      · simp at h
      · obtain ⟨hx1, hx2⟩ := ih _ _ _ _ h
        refine ⟨le_trans (le_min (min_le_left x_0 x_1) hm1) hx1, ?_⟩
        exact le_trans hx2 (max_le (le_max_left x_0 x_1) hm2)
      · obtain ⟨hx1, hx2⟩ := ih _ _ _ _ h
        refine ⟨le_trans (le_min hm1 (min_le_right x_0 x_1)) hx1, ?_⟩
        exact le_trans hx2 (max_le hm2 (le_max_right x_0 x_1))

theorem check_sign_of_zero : check_sign 0 = "Zero" := rfl

theorem check_sign_ne_zero_label (y : ℚ) (hy : y ≠ 0) : check_sign y ≠ "Zero" := by
  rcases lt_trichotomy y 0 with h | h | h
  · simp only [check_sign, if_pos h]; decide
  · exact absurd h hy
  · have hneg : ¬y < 0 := by linarith
    simp only [check_sign, if_neg hneg, if_pos h]; decide

/-! ### Claim theorems -/

/-- C1: `solve` first runs `newton_raphson(f, df, x_0, eps, max_its_n)` and
returns its result directly if it succeeds; if and only if that attempt raises
`ConvergenceError` does `solve` call `bisection(f, x_0, x_1, eps, max_its_b)`
and return its result; any other error from the Newton stage (such as a
division fault), and any error from the bisection fallback itself, propagates
unmodified.  The last conjunct is the "only if": whenever the Newton stage
does not raise `ConvergenceError`, `solve`'s outcome is exactly the Newton
stage's outcome, so bisection is never consulted. -/
theorem solve_fallback_policy (f df : ℚ → ℚ) (x_0 x_1 eps : ℚ) (mn mb : ℤ)
    (fuel : ℕ) :
    (∀ x : ℚ, newton_raphson f df x_0 eps mn fuel = some (.ok x) →
        solve f df x_0 x_1 eps mn mb fuel = some (.ok x)) ∧
    (∀ msg : String,
        newton_raphson f df x_0 eps mn fuel = some (.error (.convergenceError msg)) →
        solve f df x_0 x_1 eps mn mb fuel = bisection f x_0 x_1 eps mb fuel) ∧
    (newton_raphson f df x_0 eps mn fuel = some (.error .zeroDivisionError) →
        solve f df x_0 x_1 eps mn mb fuel = some (.error .zeroDivisionError)) ∧
    ((∀ msg : String,
        newton_raphson f df x_0 eps mn fuel ≠ some (.error (.convergenceError msg))) →
        solve f df x_0 x_1 eps mn mb fuel = newton_raphson f df x_0 eps mn fuel) := by
  refine ⟨?_, ?_, ?_, ?_⟩
  · intro x hx; simp [solve, hx]
  · intro msg hmsg; simp [solve, hmsg]
  · intro hz; simp [solve, hz]
  · intro hne
    rcases hr : newton_raphson f df x_0 eps mn fuel with _ | r
    · simp [solve, hr]
    · rcases r with e | x
      · rcases e with msg | _ | _
        · exact absurd hr (hne msg)
        · simp [solve, hr]
        · simp [solve, hr]
      · simp [solve, hr]

/-- Witness for C1 at a concrete input where the Newton stage succeeds. -/
theorem solve_fallback_policy_witness :
    solve (fun x => x) (fun _ => 1) 0 1 1 20 20 1 = some (.ok 0) :=
  (solve_fallback_policy (fun x => x) (fun _ => 1) 0 1 1 20 20 1).1 0
    (by norm_num [newton_raphson, newton_raphsonAux])

/-- C2: whenever `newton_raphson` returns a value `x`, that value satisfies
`|f x| < eps` at the moment of return. -/
theorem newton_raphson_returns_tol (f df : ℚ → ℚ) (x_0 eps : ℚ) (max_its : ℤ)
    (fuel : ℕ) (x : ℚ)
    (h : newton_raphson f df x_0 eps max_its fuel = some (.ok x)) : |f x| < eps :=
  newton_raphsonAux_ok f df eps max_its fuel x_0 0 x h

/-- Witness for C2 at a concrete converging run. -/
theorem newton_raphson_returns_tol_witness :
    newton_raphson (fun x => x) (fun _ => 1) 0 1 20 1 = some (.ok 0) ∧
      |(fun x : ℚ => x) 0| < 1 :=
  ⟨by norm_num [newton_raphson, newton_raphsonAux],
    newton_raphson_returns_tol (fun x => x) (fun _ => 1) 0 1 20 1 0
      (by norm_num [newton_raphson, newton_raphsonAux])⟩

/-- C3: the Newton loop is entered with counter 0; with fuel for
`max_its + 1` update computations the call always settles, and raising
`ConvergenceError` consumes exactly `max_its + 1` update computations (with
only `max_its` of fuel the loop would still be running); the first update is
attempted and tested whatever `max_its` is (one unit of fuel already settles
the call when the first update converges or faults); and with `max_its = 0`
exactly one update is computed and tested before the call fails. -/
theorem newton_raphson_iteration_count (f df : ℚ → ℚ) (x_0 eps : ℚ) :
    (∀ (m : ℤ) (fuel : ℕ), newton_raphson f df x_0 eps m fuel =
        newton_raphsonAux f df x_0 eps m 0 fuel) ∧
    (∀ (m fuel : ℕ), m + 1 ≤ fuel → newton_raphson f df x_0 eps (m : ℤ) fuel ≠ none) ∧
    (∀ (m : ℕ) (msg : String),
        newton_raphson f df x_0 eps (m : ℤ) (m + 1) =
          some (.error (.convergenceError msg)) →
        newton_raphson f df x_0 eps (m : ℤ) m = none) ∧
    (∀ m : ℤ,
        (df x_0 = 0 → newton_raphson f df x_0 eps m 1 =
            some (.error .zeroDivisionError)) ∧
        (df x_0 ≠ 0 → |f (x_0 - f x_0 / df x_0)| < eps →
            newton_raphson f df x_0 eps m 1 = some (.ok (x_0 - f x_0 / df x_0)))) ∧
    (df x_0 ≠ 0 → ¬|f (x_0 - f x_0 / df x_0)| < eps →
        newton_raphson f df x_0 eps 0 1 =
          some (.error (.convergenceError "Max iteration reached"))) := by
  refine ⟨fun m fuel => rfl, ?_, ?_, ?_, ?_⟩
  · intro m fuel hf
    obtain ⟨k, rfl⟩ : ∃ k, fuel = k + 1 := ⟨fuel - 1, by omega⟩
    exact newton_raphsonAux_total f df eps m k x_0 0 (Nat.zero_le m) (by omega)
  · intro m msg h
    rcases hr : newton_raphsonAux f df x_0 eps (m : ℤ) 0 m with _ | r
    · exact hr
    · exfalso
      have hmono := newton_raphsonAux_mono f df eps (m : ℤ) m x_0 0 r (m + 1) hr
        (by omega)
      have h2 : newton_raphsonAux f df x_0 eps (m : ℤ) 0 (m + 1) =
          some (.error (.convergenceError msg)) := h
      rw [hmono] at h2
      obtain rfl : r = .error (.convergenceError msg) := by simpa using h2
      obtain ⟨k, hk1, hk2, hk3⟩ :=
        newton_raphsonAux_conv_counter f df eps (m : ℤ) m x_0 0 msg hr
      omega
  · intro m
    constructor
    · intro hdf
      show newton_raphsonAux f df x_0 eps m 0 1 = some (.error .zeroDivisionError)
      rw [newton_raphsonAux_succ, if_pos hdf]
    · intro hdf htol
      show newton_raphsonAux f df x_0 eps m 0 1 = some (.ok (x_0 - f x_0 / df x_0))
      rw [newton_raphsonAux_succ, if_neg hdf, if_pos htol]
  · intro hdf htol
    show newton_raphsonAux f df x_0 eps 0 0 1 =
      some (.error (.convergenceError "Max iteration reached"))
    rw [newton_raphsonAux_succ, if_neg hdf, if_neg htol, if_pos (by norm_num)]

/-- Witness for C3: with `max_its = 0` a non-converging first update already
raises `ConvergenceError`. -/
theorem newton_raphson_iteration_count_witness :
    newton_raphson (fun _ => 1) (fun _ => 1) 0 (1 / 2) 0 1 =
      some (.error (.convergenceError "Max iteration reached")) :=
  (newton_raphson_iteration_count (fun _ => 1) (fun _ => 1) 0 (1 / 2)).2.2.2.2
    (by norm_num) (by norm_num)

/-- C4: at the start of every bisection loop iteration (arbitrary current
endpoints and counter, not only at entry), the signs of `f(x_0)` and `f(x_1)`
as returned by `check_sign` are compared, and if they are equal the iteration
fails immediately with the bare `ValueError`, an error distinct from
`ConvergenceError`. -/
theorem bisection_bracket_check (f : ℚ → ℚ) (x_0 x_1 eps : ℚ) (m : ℤ)
    (c fuel : ℕ) (h : check_sign (f x_0) = check_sign (f x_1)) :
    bisectionAux f x_0 x_1 eps m c (fuel + 1) = some (.error .valueError) ∧
      ∀ msg : String, PyError.valueError ≠ PyError.convergenceError msg := by
  refine ⟨?_, fun msg hmsg => PyError.noConfusion hmsg⟩
  rw [bisectionAux_succ, if_pos h]

/-- Witness for C4 on a bracket with two positive endpoints. -/
theorem bisection_bracket_check_witness :
    bisectionAux (fun x => x) 1 2 1 20 0 1 = some (.error .valueError) ∧
      ∀ msg : String, PyError.valueError ≠ PyError.convergenceError msg :=
  bisection_bracket_check (fun x => x) 1 2 1 20 0 0 (by decide)

/-- C5: with a valid bracket, each bisection iteration computes the midpoint
`x_star = (x_0 + x_1)/2`, returns it when `|f(x_star)| < eps` (the convergence
check strictly precedes the budget check), otherwise raises `ConvergenceError`
when the counter equals `max_its`, and otherwise recurses with `x_1 = x_star`
when `check_sign(f(x_star)) = check_sign(f(x_1))` and with `x_0 = x_star`
otherwise, incrementing the counter; and any value `bisection` returns
satisfies `|f(x_star)| < eps`. -/
theorem bisection_step_semantics (f : ℚ → ℚ) (x_0 x_1 eps : ℚ) (m : ℤ)
    (c fuel : ℕ) (hbr : check_sign (f x_0) ≠ check_sign (f x_1)) :
    (|f ((x_0 + x_1) / 2)| < eps →
        bisectionAux f x_0 x_1 eps m c (fuel + 1) = some (.ok ((x_0 + x_1) / 2))) ∧
    (¬|f ((x_0 + x_1) / 2)| < eps → (c : ℤ) = m →
        bisectionAux f x_0 x_1 eps m c (fuel + 1) =
          some (.error (.convergenceError "Max iteration reached"))) ∧
    (¬|f ((x_0 + x_1) / 2)| < eps → (c : ℤ) ≠ m →
        check_sign (f ((x_0 + x_1) / 2)) = check_sign (f x_1) →
        bisectionAux f x_0 x_1 eps m c (fuel + 1) =
          bisectionAux f x_0 ((x_0 + x_1) / 2) eps m (c + 1) fuel) ∧
    (¬|f ((x_0 + x_1) / 2)| < eps → (c : ℤ) ≠ m →
        check_sign (f ((x_0 + x_1) / 2)) ≠ check_sign (f x_1) →
        bisectionAux f x_0 x_1 eps m c (fuel + 1) =
          bisectionAux f ((x_0 + x_1) / 2) x_1 eps m (c + 1) fuel) ∧
    (∀ (fuel2 : ℕ) (x : ℚ),
        bisection f x_0 x_1 eps m fuel2 = some (.ok x) → |f x| < eps) := by
  refine ⟨?_, ?_, ?_, ?_, ?_⟩
  · intro htol
    rw [bisectionAux_succ, if_neg hbr, if_pos htol]
  · intro htol hc
    rw [bisectionAux_succ, if_neg hbr, if_neg htol, if_pos hc]
  · intro htol hc hsgn
    rw [bisectionAux_succ, if_neg hbr, if_neg htol, if_neg hc, if_pos hsgn]
  · intro htol hc hsgn
    rw [bisectionAux_succ, if_neg hbr, if_neg htol, if_neg hc, if_neg hsgn]
  · intro fuel2 x h
    exact bisectionAux_ok f eps m fuel2 x_0 x_1 0 x h

/-- Witness for C5: on the bracket `[-1, 2]` for the identity function the
first midpoint `1/2` already meets the tolerance `1` and is returned. -/
theorem bisection_step_semantics_witness :
    bisectionAux (fun x => x) (-1) 2 1 20 0 1 = some (.ok ((-1 + 2) / 2)) :=
  (bisection_step_semantics (fun x => x) (-1) 2 1 20 0 0 (by decide)).1
    (by norm_num [abs_lt])

/-- C6 counterexample: a concrete exhausted run raises `ConvergenceError`
carrying the message "Max iteration reached" (capital M), which is not the
string "max iteration reached" stated in the claim. -/
theorem convergence_error_message_counterexample :
    newton_raphson (fun _ => 2) (fun _ => 1) 0 1 0 1 =
      some (.error (.convergenceError "Max iteration reached")) ∧
      "Max iteration reached" ≠ "max iteration reached" := by
  constructor
  · norm_num [newton_raphson, newton_raphsonAux]
  · decide

/-- C6 (amended): every `ConvergenceError` raised by an exhausted
`newton_raphson` or `bisection` run carries the descriptive message
"Max iteration reached". -/
theorem convergence_error_message (f df : ℚ → ℚ) (x_0 x_1 eps : ℚ) (m : ℤ)
    (fuel : ℕ) :
    (∀ msg : String, newton_raphson f df x_0 eps m fuel =
        some (.error (.convergenceError msg)) → msg = "Max iteration reached") ∧
    (∀ msg : String, bisection f x_0 x_1 eps m fuel =
        some (.error (.convergenceError msg)) → msg = "Max iteration reached") :=
  ⟨fun msg h => newton_raphsonAux_msg f df eps m fuel x_0 0 msg h,
   fun msg h => bisectionAux_msg f eps m fuel x_0 x_1 0 msg h⟩

/-- Witness for the amended C6 at a concrete exhausted Newton run. -/
theorem convergence_error_message_witness :
    "Max iteration reached" = "Max iteration reached" :=
  (convergence_error_message (fun _ => 2) (fun _ => 1) 0 0 1 0 1).1
    "Max iteration reached" (by norm_num [newton_raphson, newton_raphsonAux])

/-- C7: each solver call is a pure function of its arguments: two calls with
(extensionally) identical arguments yield identical results for all three
operations — no hidden state is carried between calls. -/
theorem solver_calls_deterministic (f g df dg : ℚ → ℚ) (x_0 x_1 eps : ℚ)
    (m mn mb : ℤ) (fuel : ℕ) (hf : ∀ x, f x = g x) (hdf : ∀ x, df x = dg x) :
    (newton_raphson f df x_0 eps m fuel = newton_raphson g dg x_0 eps m fuel) ∧
    (bisection f x_0 x_1 eps m fuel = bisection g x_0 x_1 eps m fuel) ∧
    (solve f df x_0 x_1 eps mn mb fuel = solve g dg x_0 x_1 eps mn mb fuel) := by
  obtain rfl : f = g := funext hf
  obtain rfl : df = dg := funext hdf
  exact ⟨rfl, rfl, rfl⟩

/-- Witness for C7 at concrete arguments. -/
theorem solver_calls_deterministic_witness :
    newton_raphson (fun x => x) (fun _ => 1) 0 1 20 1 =
      newton_raphson (fun x => x) (fun _ => 1) 0 1 20 1 :=
  (solver_calls_deterministic (fun x => x) (fun x => x) (fun _ => 1) (fun _ => 1)
    0 1 1 20 20 20 1 (fun _ => rfl) (fun _ => rfl)).1

/-- C8: an iteration whose bracket is contained in the interval spanned by the
original endpoints computes its midpoint inside that interval, and any value
`bisection` returns lies within the closed interval from `min x_0 x_1` to
`max x_0 x_1` spanned by the original endpoint arguments. -/
theorem bisection_stays_in_bracket (f : ℚ → ℚ) (x_0 x_1 eps : ℚ) (m : ℤ) :
    (∀ a b : ℚ, min x_0 x_1 ≤ min a b → max a b ≤ max x_0 x_1 →
        min x_0 x_1 ≤ (a + b) / 2 ∧ (a + b) / 2 ≤ max x_0 x_1) ∧
    (∀ (fuel : ℕ) (x : ℚ), bisection f x_0 x_1 eps m fuel = some (.ok x) →
        min x_0 x_1 ≤ x ∧ x ≤ max x_0 x_1) := by
  constructor
  · intro a b ha hb
    obtain ⟨h1, h2⟩ := mid_between a b
    exact ⟨le_trans ha h1, le_trans h2 hb⟩
  · intro fuel x h
    exact bisectionAux_mem f eps m fuel x_0 x_1 0 x h

/-- Witness for C8: the value returned on the bracket `[-1, 2]` lies in it. -/
theorem bisection_stays_in_bracket_witness :
    min (-1 : ℚ) 2 ≤ (-1 + 2) / 2 ∧ ((-1 : ℚ) + 2) / 2 ≤ max (-1 : ℚ) 2 :=
  (bisection_stays_in_bracket (fun x => x) (-1) 2 1 20).2 1 ((-1 + 2) / 2)
    (by rw [bisection, bisectionAux_succ, if_neg (by decide),
      if_pos (by norm_num [abs_lt])])

/-- C9: when exactly one endpoint evaluates to zero, `check_sign` classifies
it "Zero" while the other endpoint is classified "Negative" or "Positive", so
that iteration does not raise the invalid-bracket `ValueError` (with one unit
of fuel the outcome is never `ValueError`) and the loop proceeds to the
midpoint, returning it when it meets the tolerance. -/
theorem bisection_zero_endpoint_proceeds (f : ℚ → ℚ) (x_0 x_1 eps : ℚ)
    (h : (f x_0 = 0 ∧ f x_1 ≠ 0) ∨ (f x_0 ≠ 0 ∧ f x_1 = 0)) :
    check_sign (f x_0) ≠ check_sign (f x_1) ∧
    (∀ (m : ℤ) (c : ℕ),
        bisectionAux f x_0 x_1 eps m c 1 ≠ some (.error .valueError)) ∧
    (∀ (m : ℤ) (c fuel : ℕ), |f ((x_0 + x_1) / 2)| < eps →
        bisectionAux f x_0 x_1 eps m c (fuel + 1) =
          some (.ok ((x_0 + x_1) / 2))) := by
  have hne : check_sign (f x_0) ≠ check_sign (f x_1) := by
    rcases h with ⟨h0, h1⟩ | ⟨h0, h1⟩
    · rw [h0, check_sign_of_zero]
      exact fun heq => check_sign_ne_zero_label (f x_1) h1 heq.symm
    · rw [h1, check_sign_of_zero]
      exact fun heq => check_sign_ne_zero_label (f x_0) h0 heq
  refine ⟨hne, ?_, ?_⟩
  · intro m c
    rw [show (1 : ℕ) = 0 + 1 by rfl, bisectionAux_succ, if_neg hne]
    split_ifs with h2 h3 h4 <;> simp [bisectionAux_zero]
  · intro m c fuel htol
    rw [bisectionAux_succ, if_neg hne, if_pos htol]

/-- Witness for C9 with a zero left endpoint. -/
theorem bisection_zero_endpoint_proceeds_witness :
    check_sign ((fun x : ℚ => x) 0) ≠ check_sign ((fun x : ℚ => x) 1) :=
  (bisection_zero_endpoint_proceeds (fun x => x) 0 1 1
    (Or.inl ⟨rfl, by norm_num⟩)).1

/-- C10: with a negative `max_its` the `ConvergenceError` branch of either
loop is unreachable — the counter starts at 0 and only increments, so
`counter == max_its` never holds — and within any amount of fuel the Newton
loop either is still running, returns a value meeting the tolerance, or
faults with `ZeroDivisionError`, while the bisection loop either is still
running, returns a value meeting the tolerance, or raises the
invalid-bracket `ValueError`. -/
theorem negative_budget_no_convergence_error (m : ℤ) (hm : m < 0) :
    (∀ (f df : ℚ → ℚ) (x_0 eps : ℚ) (c fuel : ℕ) (msg : String),
        newton_raphsonAux f df x_0 eps m c fuel ≠
          some (.error (.convergenceError msg))) ∧
    (∀ (f df : ℚ → ℚ) (x_0 eps : ℚ) (c fuel : ℕ),
        newton_raphsonAux f df x_0 eps m c fuel = none ∨
        (∃ x, newton_raphsonAux f df x_0 eps m c fuel = some (.ok x) ∧
          |f x| < eps) ∨
        newton_raphsonAux f df x_0 eps m c fuel =
          some (.error .zeroDivisionError)) ∧
    (∀ (f : ℚ → ℚ) (x_0 x_1 eps : ℚ) (c fuel : ℕ) (msg : String),
        bisectionAux f x_0 x_1 eps m c fuel ≠
          some (.error (.convergenceError msg))) ∧
    (∀ (f : ℚ → ℚ) (x_0 x_1 eps : ℚ) (c fuel : ℕ),
        bisectionAux f x_0 x_1 eps m c fuel = none ∨
        (∃ x, bisectionAux f x_0 x_1 eps m c fuel = some (.ok x) ∧
          |f x| < eps) ∨
        bisectionAux f x_0 x_1 eps m c fuel = some (.error .valueError)) := by
  have hn : ∀ (f df : ℚ → ℚ) (x_0 eps : ℚ) (c fuel : ℕ) (msg : String),
      newton_raphsonAux f df x_0 eps m c fuel ≠
        some (.error (.convergenceError msg)) := by
    intro f df x_0 eps c fuel msg h
    obtain ⟨k, _, _, hk⟩ :=
      newton_raphsonAux_conv_counter f df eps m fuel x_0 c msg h
    omega
  have hb : ∀ (f : ℚ → ℚ) (x_0 x_1 eps : ℚ) (c fuel : ℕ) (msg : String),
      bisectionAux f x_0 x_1 eps m c fuel ≠
        some (.error (.convergenceError msg)) := by
    intro f x_0 x_1 eps c fuel msg h
    obtain ⟨k, _, _, hk⟩ :=
      bisectionAux_conv_counter f eps m fuel x_0 x_1 c msg h
    omega
  refine ⟨hn, ?_, hb, ?_⟩
  · intro f df x_0 eps c fuel
    rcases hr : newton_raphsonAux f df x_0 eps m c fuel with _ | r
    · exact Or.inl rfl
    · rcases r with e | x
      · rcases e with msg | _ | _
        · exact absurd hr (hn f df x_0 eps c fuel msg)
        · exact absurd hr (newton_raphsonAux_no_valueError f df eps m fuel x_0 c)
        · exact Or.inr (Or.inr rfl)
      · exact Or.inr (Or.inl ⟨x, rfl, newton_raphsonAux_ok f df eps m fuel x_0 c x hr⟩)
  · intro f x_0 x_1 eps c fuel
    rcases hr : bisectionAux f x_0 x_1 eps m c fuel with _ | r
    · exact Or.inl rfl
    · rcases r with e | x
      · rcases e with msg | _ | _
        · exact absurd hr (hb f x_0 x_1 eps c fuel msg)
        · exact Or.inr (Or.inr rfl)
        · exact absurd hr (bisectionAux_no_zeroDivisionError f eps m fuel x_0 x_1 c)
      · exact Or.inr (Or.inl ⟨x, rfl, bisectionAux_ok f eps m fuel x_0 x_1 c x hr⟩)

/-- Witness for C10 at `max_its = -1`. -/
theorem negative_budget_no_convergence_error_witness :
    newton_raphsonAux (fun _ => 1) (fun _ => 1) 0 1 (-1) 0 3 ≠
      some (.error (.convergenceError "Max iteration reached")) :=
  (negative_budget_no_convergence_error (-1) (by norm_num)).1
    (fun _ => 1) (fun _ => 1) 0 1 0 3 "Max iteration reached"
